import Mathlib

/-!
Shallow embedding of the DB-Playground SQL practice tool (src/app.py and
src/reset_db.py) and proofs about its answer-verification, history-ledger,
navigation and database-reseed logic.

Conventions of the embedding:
* SQLite cell values are modelled by `Value`: a numeric value (exact rational,
  covering both INTEGER and REAL storage classes, so that the `check_dtype=False`
  comparison of `pandas.testing.assert_frame_equal` — which treats numerically
  equal values as equal regardless of storage type — becomes plain equality),
  a text value, and NULL.
* A pandas `DataFrame` produced by `pd.read_sql_query` is a `Frame`: a header
  (column names) and a list of rows in result order.
* The database-backed `USER_HISTORY` table is a `List HistoryEntry` in
  insertion (autoincrement-rowid) order.
* Wall-clock behaviour of `run_query_with_timeout` is discretised: a query is
  given an abstract `duration`, and the outcome records at which time control
  returns to the caller.
-/

/-- Model of a SQLite cell value as surfaced through pandas.  `num` carries an
exact rational so that an INTEGER and a REAL holding the same number are the
same value, matching the type-insensitive comparison done with
`check_dtype=False` in app.py line 373. -/
inductive Value where
  | num (q : ℚ)
  | text (s : String)
  | null
deriving DecidableEq

/-- Sort key for `Value`, fixing the total order used to determinise
`DataFrame.sort_values` on frames whose sort succeeds: numbers by numeric
value, text lexicographically over the character list, NULL last (pandas
sorts missing values last by default, `na_position` is left at its default in
app.py line 371).  Pandas has no order between numeric and text cells — such
a comparison raises `TypeError`, modelled by `sortValuesRaises` below — so
the cross-class part of this key (numbers before text) is a determinization
of the model that `verify` never exercises: it sorts only frames free of
mixed numeric/text columns, and row comparisons compare cells columnwise. -/
def Value.key : Value → ℕ ×ₗ (ℚ ×ₗ List Char)
  | Value.num q => toLex (0, toLex (q, []))
  | Value.text s => toLex (1, toLex (0, s.data))
  | Value.null => toLex (2, toLex (0, []))

theorem Value.key_injective : Function.Injective Value.key := by
  intro a b h
  cases a with
  | num q =>
    cases b with
    | num p => simp only [Value.key, toLex_inj, Prod.mk.injEq] at h; rw [h.2.1]
    | text s => simp [Value.key] at h
    | null => simp [Value.key] at h
  | text s =>
    cases b with
    | num p => simp [Value.key] at h
    | text t =>
      have hd : s.data = t.data := by
        simpa only [Value.key, toLex_inj, Prod.mk.injEq, true_and] using h
      cases s with
      | mk ls =>
        cases t with
        | mk lt => rw [show ls = lt from hd]
    | null => simp [Value.key] at h
  | null =>
    cases b with
    | num p => simp [Value.key] at h
    | text s => simp [Value.key] at h
    | null => rfl

instance : LinearOrder Value := LinearOrder.lift' Value.key Value.key_injective

/-- Model of a pandas DataFrame returned by `pd.read_sql_query`: the column
labels and the rows (each row a list of cells in positional column order). -/
structure Frame where
  header : List String
  rows : List (List Value)
deriving DecidableEq

/-- Whether column `i` holds at least one numeric cell. -/
def columnHasNum (rows : List (List Value)) (i : ℕ) : Bool :=
  rows.any (fun r =>
    match r.get? i with
    | some (Value.num _) => true
    | _ => false)

/-- Whether column `i` holds at least one text cell. -/
def columnHasText (rows : List (List Value)) (i : ℕ) : Bool :=
  rows.any (fun r =>
    match r.get? i with
    | some (Value.text _) => true
    | _ => false)

/-- Model of whether `df.sort_values(by=list(df.columns))` raises `TypeError`:
sorting an object-dtype column that holds both numeric and text cells must at
some point compare a number with a string, which Python 3 refuses with a
`TypeError`, and pandas does not catch it.
Missing values are exempt: pandas masks them out (`na_position` handling)
without comparing them, so NULL next to numbers or text raises nothing.
`sort_values` receives every column as a key, so any mixed column among the
first `cols` positions raises. -/
def sortValuesRaises (cols : ℕ) (rows : List (List Value)) : Bool :=
  (List.range cols).any (fun i => columnHasNum rows i && columnHasText rows i)

/-- The `str(e)` text the handler stores when the sort raises.  The exact
wording CPython produces depends on which mixed pair is compared first (e.g.
str-versus-int or int-versus-str); the model fixes one representative text.
No claim depends on the wording — only on it differing from
"Result mismatch". -/
def sortTypeErrorMessage : String :=
  "'<' not supported between instances of 'str' and 'int'"

/-- Model of `df.sort_values(by=list(df.columns)).reset_index(drop=True)`
(app.py lines 371-372) on a frame whose sort does not raise: rows sorted
ascending by their full column tuple, lexicographically in positional column
order.  `List Value` carries the lexicographic linear order induced by the
order on `Value`; a row comparison only ever compares cells at the same
column position, so on frames where `sortValuesRaises` is false the
cross-class part of the `Value.key` order (numbers before text) is never
exercised — only the faithful parts are: numeric order, text order, and
missing-last. -/
def sortRows (rs : List (List Value)) : List (List Value) :=
  List.insertionSort (fun a b : List Value => a ≤ b) rs

/-- The three ways the try-block of app.py lines 364-379 can end. -/
inductive CompareOutcome where
  | passed
  | failed
  | raised (msg : String)
deriving DecidableEq

/-- Model of the comparison try-block of app.py lines 364-374: column names
are discarded by renumbering the columns `0..k-1` on both sides (lines
366-367), so the column labels compare equal exactly when the column counts
do.  Both sides are then sorted by their full column tuple — the expected
frame first, the learner's frame second (Python evaluates the arguments of
line 370 left to right) — and a frame with a column mixing numeric and text
cells makes that sort raise `TypeError`, which escapes to the generic
`except Exception` handler (`raised`).  Otherwise
`pd.testing.assert_frame_equal` (with `check_dtype=False`) compares shape and
cells positionally: success is `passed`, any shape or cell difference raises
`AssertionError` (`failed`). -/
def compareFrames (expected actual : Frame) : CompareOutcome :=
  if sortValuesRaises expected.header.length expected.rows then
    CompareOutcome.raised sortTypeErrorMessage
  else if sortValuesRaises actual.header.length actual.rows then
    CompareOutcome.raised sortTypeErrorMessage
  else if expected.header.length = actual.header.length ∧
      sortRows expected.rows = sortRows actual.rows then
    CompareOutcome.passed
  else
    CompareOutcome.failed

/-- Result of the comparison step of the submit handler. -/
structure VerifyResult where
  is_correct : Bool
  detail : Option String
deriving DecidableEq

/-- Model of the whole comparison block of app.py lines 364-382, i.e.
`compareFrames` together with its exception handlers: success sets
`is_correct=True` (line 376); `except AssertionError` (lines 377-379) sets
the detail "Result mismatch"; the generic `except Exception as e` (lines
380-382) sets the detail to `str(e)`. -/
def verify (expected actual : Frame) : VerifyResult :=
  match compareFrames expected actual with
  | CompareOutcome.passed => { is_correct := true, detail := none }
  | CompareOutcome.failed => { is_correct := false, detail := some "Result mismatch" }
  | CompareOutcome.raised msg => { is_correct := false, detail := some msg }

/-- Model of one row of the `USER_HISTORY` table (app.py lines 67-76); the
autoincrement `id` is the position in the ledger list, `timestamp` is the
`CURRENT_TIMESTAMP` default in seconds (second resolution, as SQLite's
`CURRENT_TIMESTAMP` renders `YYYY-MM-DD HH:MM:SS`). -/
structure HistoryEntry where
  question_id : ℕ
  user_sql : String
  is_correct : Bool
  error_message : Option String
  timestamp : ℕ
deriving DecidableEq

/-- Model of `save_history` (app.py lines 119-131): a plain `INSERT`, i.e. the
new row is appended after all existing rows. -/
def save_history (ledger : List HistoryEntry) (question_id : ℕ) (user_sql : String)
    (is_correct : Bool) (error_message : Option String) (timestamp : ℕ) :
    List HistoryEntry :=
  ledger ++ [{ question_id := question_id, user_sql := user_sql,
               is_correct := is_correct, error_message := error_message,
               timestamp := timestamp }]

/-- Ordering used by `get_history`: `ORDER BY timestamp DESC` (app.py line
137).  Note it compares timestamps only — there is no secondary sort key. -/
def histDesc (a b : HistoryEntry) : Prop :=
  b.timestamp ≤ a.timestamp

instance : DecidableRel histDesc := fun a b =>
  inferInstanceAs (Decidable (b.timestamp ≤ a.timestamp))

/-- Model of `get_history` (app.py lines 133-145): select the rows of the
question, ordered by `timestamp DESC`.  SQLite's `ORDER BY` has no tiebreaker
here; rows sharing a timestamp surface in table-scan (insertion) order, which
is modelled by a stable sort (insertion sort is stable: an element is placed
before later elements with an equal key, never before earlier ones). -/
def get_history (question_id : ℕ) (ledger : List HistoryEntry) : List HistoryEntry :=
  List.insertionSort histDesc (ledger.filter (fun e => e.question_id == question_id))

/-- Model of `get_solved_questions` (app.py lines 147-158):
`SELECT DISTINCT question_id FROM USER_HISTORY WHERE is_correct = 1`,
as a duplicate-free list whose membership is the set the code returns. -/
def get_solved_questions (ledger : List HistoryEntry) : List ℕ :=
  ((ledger.filter (fun e => e.is_correct)).map (fun e => e.question_id)).dedup

/-- Outcome of `run_query` (app.py lines 177-185): either a DataFrame or the
stringified database exception. -/
inductive RunResult where
  | ok (df : Frame)
  | err (msg : String)
deriving DecidableEq

/-- A query together with the wall-clock duration its execution takes, used to
discretise the timing behaviour of `run_query_with_timeout`. -/
structure TimedQuery where
  duration : ℕ
  result : RunResult
deriving DecidableEq

/-- What the caller of `run_query_with_timeout` observes: the returned value
and the instant (relative to the call) at which control actually returns. -/
structure TimedOutcome where
  value : RunResult
  controlReturnedAt : ℕ
deriving DecidableEq

/-- Model of `run_query_with_timeout` (app.py lines 187-195).  The query runs
on a worker thread; `future.result(timeout=timeout_seconds)` raises
`TimeoutError` once the limit passes and the handler returns
`(None, "Timeout")`.  However the whole body sits in a
`with concurrent.futures.ThreadPoolExecutor() as executor:` block, whose
exit calls `executor.shutdown(wait=True)`; the worker thread cannot be
cancelled, so leaving the block joins it and the caller only regains control
once the underlying query completes.  Hence `controlReturnedAt` is the query's
full duration in both branches. -/
def run_query_with_timeout (q : TimedQuery) (timeout_seconds : ℕ) : TimedOutcome :=
  if q.duration ≤ timeout_seconds then
    { value := q.result, controlReturnedAt := q.duration }
  else
    { value := RunResult.err "Timeout", controlReturnedAt := q.duration }

/-- Model of the guard `if user_sql.strip():` (app.py line 322): the stripped
string is truthy exactly when it is non-empty, i.e. when the SQL text contains
at least one non-whitespace character. -/
def stripTruthy (s : String) : Bool :=
  s.data.any (fun c => !c.isWhitespace)

/-- Observable side effects of the run/submit click handler, in program
order: queries issued against the database and messages rendered. -/
inductive Effect where
  | ranQuery (sql : String)
  | showedError (msg : String)
  | showedResult
  | showedWarning (msg : String)
  | showedToast (msg : String)
deriving DecidableEq

/-- Model of the click handler of app.py lines 321-388, entered when the run
or submit button was clicked.  Inputs that the Python code obtains by calling
the database are passed as oracles: `userRes` is what `run_query user_sql`
would return, and `refRes` is what `run_query_with_timeout answer_sql` would
return (so `RunResult.err "Timeout"` is the timeout case of line 360).
Control flow mirrors the source exactly:
* empty/whitespace SQL (line 322 `if user_sql.strip():` falsy, here
  `stripTruthy user_sql = false`): only the warning of line 388 is shown — no
  query runs, nothing is saved;
* the user query errors (line 327): the error is shown and the handler ends —
  `save_history` (line 385) sits inside the `else:` branch of line 329 and is
  never reached;
* otherwise the result is shown; on submit with a non-empty reference answer
  the reference query is evaluated under the timeout and the outcome —
  timeout, or one of the three comparison outcomes of `compareFrames`
  (success / `AssertionError` mapped to "Result mismatch" / generic exception
  mapped to `str(e)` with the ⚠️ toast of line 381), or a plain save when
  there is no reference answer — is recorded with `save_history`; on a plain
  run nothing is recorded. -/
def handleClick (submitClicked : Bool) (timestamp : ℕ) (question_id : ℕ)
    (user_sql : String) (userRes : RunResult) (answer_sql : String)
    (refRes : RunResult) (ledger : List HistoryEntry) :
    List HistoryEntry × List Effect :=
  if stripTruthy user_sql then
    match userRes with
    | RunResult.err e => (ledger, [Effect.ranQuery user_sql, Effect.showedError e])
    | RunResult.ok userDf =>
      if submitClicked then
        if answer_sql ≠ "" then
          match refRes with
          | RunResult.err e =>
            if e = "Timeout" then
              (save_history ledger question_id user_sql false
                 (some "Reference answer timeout, validation skipped.") timestamp,
               [Effect.ranQuery user_sql, Effect.showedResult,
                Effect.ranQuery answer_sql,
                Effect.showedWarning "参考答案加载超时，本次提交不进行判题，仅保存记录。"])
            else
              (save_history ledger question_id user_sql false none timestamp,
               [Effect.ranQuery user_sql, Effect.showedResult,
                Effect.ranQuery answer_sql])
          | RunResult.ok expectedDf =>
            match compareFrames expectedDf userDf with
            | CompareOutcome.passed =>
              (save_history ledger question_id user_sql true none timestamp,
               [Effect.ranQuery user_sql, Effect.showedResult,
                Effect.ranQuery answer_sql, Effect.showedToast "✅ 结果正确！"])
            | CompareOutcome.failed =>
              (save_history ledger question_id user_sql false
                 (some "Result mismatch") timestamp,
               [Effect.ranQuery user_sql, Effect.showedResult,
                Effect.ranQuery answer_sql,
                Effect.showedToast "❌ 结果与预期不完全一致，请检查数据或排序。"])
            | CompareOutcome.raised msg =>
              (save_history ledger question_id user_sql false
                 (some msg) timestamp,
               [Effect.ranQuery user_sql, Effect.showedResult,
                Effect.ranQuery answer_sql,
                Effect.showedToast ("⚠️ 无法自动比对结果: " ++ msg)])
        else
          (save_history ledger question_id user_sql false none timestamp,
           [Effect.ranQuery user_sql, Effect.showedResult])
      else
        (ledger, [Effect.ranQuery user_sql, Effect.showedResult])
  else
    (ledger, [Effect.showedWarning "请输入 SQL 语句"])

/-- Navigation events of the session controller: the two buttons (app.py
lines 254-260) and selecting a title in the sidebar radio list, whose
callback `update_index` (lines 262-264) sets the index to the position of the
selected title. -/
inductive NavEvent where
  | next
  | prev
  | jump (i : ℕ)

/-- Model of the out-of-bounds reset of app.py lines 244-245: an index at or
above the question count is reset to 0 before use.  (The index is a natural
number; Python never produces a negative one here since decrements are
guarded.) -/
def clampIndex (n : ℕ) (s : ℕ) : ℕ :=
  if s ≥ n then 0 else s

/-- Model of one navigation event (app.py lines 254-264): `next_question`
increments unless already at the last index, `prev_question` decrements unless
already at 0, `update_index` assigns the selected position directly. -/
def applyNav (n : ℕ) (e : NavEvent) (s : ℕ) : ℕ :=
  match e with
  | NavEvent.next => if s < n - 1 then s + 1 else s
  | NavEvent.prev => if 0 < s then s - 1 else s
  | NavEvent.jump i => i

/-- One user interaction: the event's callback runs, then the script reruns
and the out-of-bounds check of lines 244-245 executes before the index is
used. -/
def navStep (n : ℕ) (s : ℕ) (e : NavEvent) : ℕ :=
  clampIndex n (applyNav n e s)

/-- A whole session: the initial stored index is bounds-checked on first
render, then each interaction is processed in turn. -/
def navRun (n : ℕ) (s0 : ℕ) (events : List NavEvent) : ℕ :=
  events.foldl (navStep n) (clampIndex n s0)

/-- Modelled from the spec: the seed SQL files (`school/STUDENTS.sql` etc.)
are not part of src/; per spec §6 each is a per-table script of
`CREATE TABLE` / `DROP TABLE` / `INSERT` statements, with the preprocessing of
app.py lines 84-86 / reset_db.py lines 26-29 already applied (`USE` stripped,
`DROP TABLE` guarded with `IF EXISTS`). -/
inductive SeedStmt where
  | dropIfExists (table : String)
  | create (table : String)
  | insertInto (table : String) (row : List Value)

/-- The table a seed statement addresses. -/
def SeedStmt.target : SeedStmt → String
  | SeedStmt.dropIfExists t => t
  | SeedStmt.create t => t
  | SeedStmt.insertInto t _ => t

/-- The database file as a whole: an association of table names to their rows,
in creation order.  `USER_HISTORY` is one of the tables. -/
abbrev Database := List (String × List (List Value))

/-- Lookup of a table's rows by name. -/
def lookupTable (db : Database) (name : String) : Option (List (List Value)) :=
  match db with
  | [] => none
  | (n, rs) :: rest => if n = name then some rs else lookupTable rest name

/-- Effect of `DROP TABLE IF EXISTS name`. -/
def dbDrop (name : String) (db : Database) : Database :=
  match db with
  | [] => []
  | (n, rs) :: rest =>
    if n = name then dbDrop name rest else (n, rs) :: dbDrop name rest

/-- Effect of `CREATE TABLE name (...)`: a fresh empty table. -/
def dbCreate (name : String) (db : Database) : Database :=
  db ++ [(name, [])]

/-- Effect of `INSERT INTO name VALUES (...)`: the row is appended to the
table of that name. -/
def dbInsert (name : String) (row : List Value) (db : Database) : Database :=
  match db with
  | [] => []
  | (n, rs) :: rest =>
    if n = name then (n, rs ++ [row]) :: dbInsert name row rest
    else (n, rs) :: dbInsert name row rest

/-- Semantics of one seed statement. -/
def applySeedStmt (db : Database) (st : SeedStmt) : Database :=
  match st with
  | SeedStmt.dropIfExists t => dbDrop t db
  | SeedStmt.create t => dbCreate t db
  | SeedStmt.insertInto t r => dbInsert t r db

/-- `cursor.executescript(content)` for one preprocessed seed file. -/
def runScript (db : Database) (script : List SeedStmt) : Database :=
  script.foldl applySeedStmt db

/-- The loop over `SQL_FILES` (app.py lines 78-88, reset_db.py lines 17-34). -/
def runScripts (db : Database) (scripts : List (List SeedStmt)) : Database :=
  scripts.foldl runScript db

/-- Model of `CREATE TABLE IF NOT EXISTS USER_HISTORY (...)` (app.py lines
67-76): a no-op when the table exists, otherwise a fresh empty table. -/
def createHistoryTableIfNotExists (db : Database) : Database :=
  match lookupTable db "USER_HISTORY" with
  | some _ => db
  | none => dbCreate "USER_HISTORY" db

namespace App

/-- Model of `init_db` in app.py lines 58-96: ensure the ledger table exists,
then execute every (preprocessed) seed script.  (The `st.cache_data.clear()`
call affects only the UI cache, not the database.) -/
def init_db (scripts : List (List SeedStmt)) (db : Database) : Database :=
  runScripts (createHistoryTableIfNotExists db) scripts

end App

namespace ResetDb

/-- Model of `init_db` in reset_db.py lines 9-42: execute every seed script;
this entry point does not even mention the ledger table. -/
def init_db (scripts : List (List SeedStmt)) (db : Database) : Database :=
  runScripts db scripts

end ResetDb

/-! ## Helper lemmas -/

/-- Sorting two multiset-equal row lists by the full-tuple linear order yields
the same list (the order is total, transitive and antisymmetric, so the sorted
arrangement of a multiset is unique; duplicate rows are preserved, not
deduplicated, since sorting only permutes). -/
theorem sortRows_eq_of_perm (rs ss : List (List Value)) (hperm : rs.Perm ss) :
    sortRows rs = sortRows ss := by
  apply List.eq_of_perm_of_sorted (r := fun a b : List Value => a ≤ b)
  · exact ((List.perm_insertionSort _ _).trans hperm).trans
      (List.perm_insertionSort _ _).symm
  · exact List.sorted_insertionSort _ _
  · exact List.sorted_insertionSort _ _

/-! ## C1 -/

/-- C1 counterexample: the claim fails on frames whose column mixes numeric
and text cells.  These two single-column frames satisfy the claim's
hypotheses — error-free, same column count, rows equal up to permutation —
but `df.sort_values` raises `TypeError` on the mixed column, the generic
`except Exception` handler of app.py lines 380-382 catches it, and `verify`
returns `is_correct=false` with the stringified `TypeError`, not
`is_correct=true`. -/
theorem verify_mixed_column_not_correct :
    ({ header := ["v"], rows := [[Value.num 1], [Value.text "a"]] } : Frame).rows.Perm
        ({ header := ["w"], rows := [[Value.text "a"], [Value.num 1]] } : Frame).rows ∧
    ({ header := ["v"], rows := [[Value.num 1], [Value.text "a"]] } : Frame).header.length =
      ({ header := ["w"], rows := [[Value.text "a"], [Value.num 1]] } : Frame).header.length ∧
    verify { header := ["v"], rows := [[Value.num 1], [Value.text "a"]] }
        { header := ["w"], rows := [[Value.text "a"], [Value.num 1]] } =
      { is_correct := false, detail := some sortTypeErrorMessage } := by
  decide

/-- C1 amended: for every pair of error-free result sets in which no column
mixes numeric and text cells (so both sides sort without raising) that are
equal up to a permutation of rows and a renaming of columns (same column
count, same multiset of row tuples in positional column order), `verify`
returns `is_correct=true` with no detail: after discarding column names and
sorting each side by its full column tuple, the frames compare equal,
duplicates included. -/
theorem verify_perm_and_rename_true (e a : Frame)
    (he : sortValuesRaises e.header.length e.rows = false)
    (ha : sortValuesRaises a.header.length a.rows = false)
    (hlen : e.header.length = a.header.length)
    (hperm : e.rows.Perm a.rows) :
    verify e a = { is_correct := true, detail := none } := by
  unfold verify compareFrames
  rw [he, ha]
  simp only [Bool.false_eq_true, if_false]
  rw [if_pos ⟨hlen, sortRows_eq_of_perm e.rows a.rows hperm⟩]

/-- Witness for C1: two concrete frames with different column names, shuffled
rows, a duplicated row and no mixed column compare as correct. -/
theorem verify_perm_and_rename_true_witness :
    verify
        { header := ["name", "score"],
          rows := [[Value.text "bob", Value.num 1],
                   [Value.text "ann", Value.null],
                   [Value.text "bob", Value.num 1]] }
        { header := ["n", "s"],
          rows := [[Value.text "ann", Value.null],
                   [Value.text "bob", Value.num 1],
                   [Value.text "bob", Value.num 1]] } =
      { is_correct := true, detail := none } :=
  verify_perm_and_rename_true _ _ (by decide) (by decide) (by decide) (by decide)

/-! ## C2 -/

/-- C2 counterexample: the claim fails on same-shape differing frames whose
column mixes numeric and text cells.  These two single-column frames have the
same shape and differ in a value after renumbering and sorting, yet the
detail is the stringified `TypeError` from the sort (caught by the generic
`except Exception` of app.py lines 380-382), not "Result mismatch". -/
theorem verify_mixed_column_not_mismatch_detail :
    ({ header := ["v"], rows := [[Value.num 1], [Value.text "a"]] } : Frame).header.length =
      ({ header := ["w"], rows := [[Value.num 2], [Value.text "a"]] } : Frame).header.length ∧
    ({ header := ["v"], rows := [[Value.num 1], [Value.text "a"]] } : Frame).rows.length =
      ({ header := ["w"], rows := [[Value.num 2], [Value.text "a"]] } : Frame).rows.length ∧
    sortRows [[Value.num 1], [Value.text "a"]] ≠ sortRows [[Value.num 2], [Value.text "a"]] ∧
    verify { header := ["v"], rows := [[Value.num 1], [Value.text "a"]] }
        { header := ["w"], rows := [[Value.num 2], [Value.text "a"]] } ≠
      { is_correct := false, detail := some "Result mismatch" } := by
  decide

/-- C2 amended: for every pair of error-free result sets with the same column
count in which no column mixes numeric and text cells (so both sides sort
without raising) that differ in at least one value after positional column
renumbering and full-tuple sorting, `verify` returns `is_correct=false` with
detail exactly "Result mismatch". -/
theorem verify_mismatch_detail (e a : Frame)
    (he : sortValuesRaises e.header.length e.rows = false)
    (ha : sortValuesRaises a.header.length a.rows = false)
    (hlen : e.header.length = a.header.length)
    (hne : sortRows e.rows ≠ sortRows a.rows) :
    verify e a = { is_correct := false, detail := some "Result mismatch" } := by
  unfold verify compareFrames
  rw [he, ha]
  simp only [Bool.false_eq_true, if_false]
  rw [if_neg]
  intro hand
  exact hne hand.2

/-- Witness for C2: same shape, no mixed column, one value changed. -/
theorem verify_mismatch_detail_witness :
    verify
        { header := ["name", "score"],
          rows := [[Value.text "ann", Value.num 1],
                   [Value.text "bob", Value.num 2]] }
        { header := ["n", "s"],
          rows := [[Value.text "ann", Value.num 1],
                   [Value.text "bob", Value.num 3]] } =
      { is_correct := false, detail := some "Result mismatch" } :=
  verify_mismatch_detail _ _ (by decide) (by decide) (by decide) (by decide)

/-! ## C3 -/

/-- C3 (evaluation at the failing input): a submission whose SQL fails with a
database error is NOT recorded in the history ledger.  The error branch of
app.py line 327 only renders the error text; the `save_history` call of line
385 sits inside the `else:` branch of line 329 (the error-free path), so on a
database error the handler returns with the ledger unchanged — contradicting
the spec, which requires a ledger entry whose `error_message` equals the
database-reported error string.  (The dead stores `is_correct = False;
error_msg = error` of lines 324-325 before the branch show that recording the
error was the intent.) -/
theorem submit_db_error_records_nothing :
    handleClick true 42 0 "SELEKT * FROM t"
        (RunResult.err "near \"SELEKT\": syntax error")
        "SELECT COUNT(*) FROM t"
        (RunResult.ok { header := ["COUNT(*)"], rows := [[Value.num 3]] })
        [] =
      ([], [Effect.ranQuery "SELEKT * FROM t",
            Effect.showedError "near \"SELEKT\": syntax error"]) := by
  rfl

/-! ## C4 -/

/-- C4: when the learner's query succeeds but the reference query times out,
a HistoryEntry is recorded with `is_correct=false` and `error_message` exactly
"Reference answer timeout, validation skipped.", and no comparison against the
reference result happens — the recorded outcome is the same for every learner
result frame `userDf`. -/
theorem submit_reference_timeout_recorded (ledger : List HistoryEntry)
    (ts qid : ℕ) (sql : String) (userDf : Frame) (ans : String)
    (hsql : stripTruthy sql = true) (hans : ans ≠ "") :
    handleClick true ts qid sql (RunResult.ok userDf) ans
        (RunResult.err "Timeout") ledger =
      (save_history ledger qid sql false
         (some "Reference answer timeout, validation skipped.") ts,
       [Effect.ranQuery sql, Effect.showedResult, Effect.ranQuery ans,
        Effect.showedWarning "参考答案加载超时，本次提交不进行判题，仅保存记录。"]) := by
  unfold handleClick
  rw [hsql]
  simp [hans]

/-- Witness for C4 at concrete inputs. -/
theorem submit_reference_timeout_recorded_witness :
    handleClick true 7 1 "SELECT 1"
        (RunResult.ok { header := ["1"], rows := [[Value.num 1]] })
        "SELECT * FROM CHOICES" (RunResult.err "Timeout") [] =
      (save_history [] 1 "SELECT 1" false
         (some "Reference answer timeout, validation skipped.") 7,
       [Effect.ranQuery "SELECT 1", Effect.showedResult,
        Effect.ranQuery "SELECT * FROM CHOICES",
        Effect.showedWarning "参考答案加载超时，本次提交不进行判题，仅保存记录。"]) :=
  submit_reference_timeout_recorded [] 7 1 "SELECT 1" _ _ (by decide) (by decide)

/-! ## C5 -/

/-- C5 counterexample: a query taking 5 seconds under a 2-second limit does
return the error "Timeout", but control does NOT return to the caller at the
limit: the `with ThreadPoolExecutor()` block joins its worker thread on exit
(`shutdown(wait=True)`), so the caller regains control only when the
underlying query completes at time 5, not at the limit 2. -/
theorem run_query_with_timeout_blocks_counterexample :
    (run_query_with_timeout
        { duration := 5, result := RunResult.ok { header := [], rows := [] } }
        2).value = RunResult.err "Timeout" ∧
    (run_query_with_timeout
        { duration := 5, result := RunResult.ok { header := [], rows := [] } }
        2).controlReturnedAt ≠ 2 := by
  decide

/-- C5 amended: for every query whose execution exceeds the time limit,
`run_query_with_timeout` returns error = "Timeout", but it does not abandon
the auxiliary unit of concurrency: the executor context joins the worker
thread on exit, so control returns to the caller only once the underlying
query completes (at the query's full duration, not at the limit). -/
theorem run_query_with_timeout_exceeding_limit (q : TimedQuery)
    (t : ℕ) (h : t < q.duration) :
    (run_query_with_timeout q t).value = RunResult.err "Timeout" ∧
    (run_query_with_timeout q t).controlReturnedAt = q.duration := by
  unfold run_query_with_timeout
  rw [if_neg (by omega)]
  exact ⟨rfl, rfl⟩

/-- Witness for C5 amended at a concrete over-limit query. -/
theorem run_query_with_timeout_exceeding_limit_witness :
    (run_query_with_timeout
        { duration := 9, result := RunResult.err "no such table: t" }
        2).value = RunResult.err "Timeout" ∧
    (run_query_with_timeout
        { duration := 9, result := RunResult.err "no such table: t" }
        2).controlReturnedAt = 9 :=
  run_query_with_timeout_exceeding_limit _ 2 (by decide)

/-! ## C6 -/

/-- C6: a question id is in `get_solved_questions` exactly when the ledger
holds at least one entry for it with `is_correct=true`; appending any number
of `is_correct=false` entries leaves the solved set unchanged. -/
theorem solved_questions_iff (ledger fs : List HistoryEntry) (q : ℕ)
    (hfs : ∀ e ∈ fs, e.is_correct = false) :
    (q ∈ get_solved_questions ledger ↔
       ∃ e ∈ ledger, e.question_id = q ∧ e.is_correct = true) ∧
    get_solved_questions (ledger ++ fs) = get_solved_questions ledger := by
  constructor
  · unfold get_solved_questions
    rw [List.mem_dedup]
    simp only [List.mem_map, List.mem_filter]
    constructor
    · rintro ⟨e, ⟨he, hc⟩, rfl⟩
      exact ⟨e, he, rfl, hc⟩
    · rintro ⟨e, he, rfl, hc⟩
      exact ⟨e, ⟨he, hc⟩, rfl⟩
  · unfold get_solved_questions
    have hnil : fs.filter (fun e => e.is_correct) = [] := by
      rw [List.filter_eq_nil_iff]
      intro e he
      rw [hfs e he]
      exact Bool.false_ne_true
    rw [List.filter_append, hnil, List.append_nil]

/-- Witness for C6: one solved entry for question 0, a failed entry for
question 1 appended. -/
theorem solved_questions_iff_witness :
    ((0 ∈ get_solved_questions
        [{ question_id := 0, user_sql := "SELECT 1", is_correct := true,
           error_message := none, timestamp := 3 }] ↔
       ∃ e ∈ [({ question_id := 0, user_sql := "SELECT 1", is_correct := true,
                 error_message := none, timestamp := 3 } : HistoryEntry)],
         e.question_id = 0 ∧ e.is_correct = true) ∧
     get_solved_questions
        ([{ question_id := 0, user_sql := "SELECT 1", is_correct := true,
            error_message := none, timestamp := 3 }] ++
         [{ question_id := 1, user_sql := "SELECT 2", is_correct := false,
            error_message := some "Result mismatch", timestamp := 4 }]) =
       get_solved_questions
        [{ question_id := 0, user_sql := "SELECT 1", is_correct := true,
           error_message := none, timestamp := 3 }]) :=
  solved_questions_iff _ _ 0 (by decide)

/-! ## C7 -/

/-- Inserting an entry with a strictly larger timestamp than everything in the
list puts it in front under the descending-timestamp sort: sorting `xs ++ [n]`
yields `n` first, followed by the sort of `xs`. -/
theorem insertionSort_append_strictly_newest (n : HistoryEntry) :
    ∀ xs : List HistoryEntry, (∀ x ∈ xs, x.timestamp < n.timestamp) →
      List.insertionSort histDesc (xs ++ [n]) =
        n :: List.insertionSort histDesc xs := by
  intro xs
  induction xs with
  | nil => intro _; rfl
  | cons x xs ih =>
    intro h
    have hx : ¬ histDesc x n := by
      have := h x (List.mem_cons_self x xs)
      unfold histDesc
      omega
    have hrest : ∀ y ∈ xs, y.timestamp < n.timestamp :=
      fun y hy => h y (List.mem_cons_of_mem x hy)
    simp only [List.cons_append, List.insertionSort, List.append_eq, ih hrest,
      List.orderedInsert, if_neg hx]

/-- C7 counterexample: when the newly recorded entry shares its creation
timestamp with an existing entry of the same question (SQLite's
`CURRENT_TIMESTAMP` has one-second resolution), `ORDER BY timestamp DESC` has
no tiebreaker and the tied rows surface in insertion order, so the new entry
is NOT returned first. -/
theorem record_with_tied_timestamp_not_first :
    (get_history 0 (save_history
        [{ question_id := 0, user_sql := "SELECT 1", is_correct := false,
           error_message := some "Result mismatch", timestamp := 10 }]
        0 "SELECT 2" false (some "Result mismatch") 10)).head? ≠
      some { question_id := 0, user_sql := "SELECT 2", is_correct := false,
             error_message := some "Result mismatch", timestamp := 10 } := by
  decide

/-- C7 amended: `record` followed by `listFor(question_id)` returns the new
entry first and then exactly the previous listing, provided the new entry's
timestamp is strictly greater than that of every prior entry for the question;
for ties (entries created within the same second) the new entry is listed
after the older tied entries rather than first, since `ORDER BY timestamp
DESC` has no secondary key and ties surface in insertion order. -/
theorem record_then_list_newest_first (ledger : List HistoryEntry) (qid : ℕ)
    (sql : String) (isc : Bool) (err : Option String) (ts : ℕ)
    (h : ∀ e ∈ ledger, e.question_id = qid → e.timestamp < ts) :
    get_history qid (save_history ledger qid sql isc err ts) =
      { question_id := qid, user_sql := sql, is_correct := isc,
        error_message := err, timestamp := ts } :: get_history qid ledger := by
  unfold get_history save_history
  rw [List.filter_append]
  have hone : List.filter (fun e => e.question_id == qid)
      [({ question_id := qid, user_sql := sql, is_correct := isc,
          error_message := err, timestamp := ts } : HistoryEntry)] =
      [{ question_id := qid, user_sql := sql, is_correct := isc,
         error_message := err, timestamp := ts }] := by
    simp [List.filter]
  rw [hone]
  apply insertionSort_append_strictly_newest
  intro x hx
  obtain ⟨hmem, hq⟩ := List.mem_filter.mp hx
  exact h x hmem (by simpa using hq)

/-- Witness for C7 amended: the prior entry is one second older, so the new
entry is listed first, followed by the previous listing. -/
theorem record_then_list_newest_first_witness :
    get_history 0 (save_history
        [{ question_id := 0, user_sql := "SELECT 1", is_correct := false,
           error_message := some "Result mismatch", timestamp := 9 }]
        0 "SELECT 2" true none 10) =
      { question_id := 0, user_sql := "SELECT 2", is_correct := true,
        error_message := none, timestamp := 10 } ::
        get_history 0
          [{ question_id := 0, user_sql := "SELECT 1", is_correct := false,
             error_message := some "Result mismatch", timestamp := 9 }] :=
  record_then_list_newest_first _ 0 "SELECT 2" true none 10 (by decide)

/-! ## C8 -/

/-- Any single interaction leaves the index strictly below the question count,
because the out-of-bounds check runs before the index is used. -/
theorem navStep_lt (n : ℕ) (hn : 1 ≤ n) (s : ℕ) (e : NavEvent) :
    navStep n s e < n := by
  unfold navStep clampIndex
  split
  · omega
  · omega

/-- C8: over a question list of length at least 1, the current index stays in
bounds under every sequence of navigation events, `next` increments exactly
when not at the last question, `previous` decrements exactly when not at the
first, and an out-of-bounds index is reset to 0 before use. -/
theorem nav_index_invariant (n : ℕ) (hn : 1 ≤ n) :
    (∀ s0 : ℕ, ∀ events : List NavEvent, navRun n s0 events < n) ∧
    (∀ s : ℕ, s + 1 < n → navStep n s NavEvent.next = s + 1) ∧
    (navStep n (n - 1) NavEvent.next = n - 1) ∧
    (∀ s : ℕ, 0 < s → s < n → navStep n s NavEvent.prev = s - 1) ∧
    (navStep n 0 NavEvent.prev = 0) ∧
    (∀ s : ℕ, n ≤ s → clampIndex n s = 0) := by
  refine ⟨?_, ?_, ?_, ?_, ?_, ?_⟩
  · intro s0 events
    unfold navRun
    have hstart : clampIndex n s0 < n := by
      unfold clampIndex
      split <;> omega
    revert hstart
    generalize clampIndex n s0 = s
    induction events generalizing s with
    | nil => intro hs; exact hs
    | cons e es ih =>
      intro _
      exact ih (navStep n s e) (navStep_lt n hn s e)
  · intro s hs
    unfold navStep applyNav clampIndex
    rw [if_pos (by omega : s < n - 1), if_neg (by omega : ¬ s + 1 ≥ n)]
  · unfold navStep applyNav clampIndex
    rw [if_neg (by omega : ¬ n - 1 < n - 1), if_neg (by omega : ¬ n - 1 ≥ n)]
  · intro s h0 hlt
    unfold navStep applyNav clampIndex
    rw [if_pos h0, if_neg (by omega : ¬ s - 1 ≥ n)]
  · unfold navStep applyNav clampIndex
    rw [if_neg (by omega : ¬ (0 : ℕ) < 0), if_neg (by omega : ¬ (0 : ℕ) ≥ n)]
  · intro s hs
    unfold clampIndex
    rw [if_pos hs]

/-- Witness for C8 with a three-question list. -/
theorem nav_index_invariant_witness :
    (∀ s0 : ℕ, ∀ events : List NavEvent, navRun 3 s0 events < 3) ∧
    (∀ s : ℕ, s + 1 < 3 → navStep 3 s NavEvent.next = s + 1) ∧
    (navStep 3 (3 - 1) NavEvent.next = 3 - 1) ∧
    (∀ s : ℕ, 0 < s → s < 3 → navStep 3 s NavEvent.prev = s - 1) ∧
    (navStep 3 0 NavEvent.prev = 0) ∧
    (∀ s : ℕ, 3 ≤ s → clampIndex 3 s = 0) :=
  nav_index_invariant 3 (by decide)

/-! ## C9 -/

/-- Dropping one table does not affect lookups of another. -/
theorem lookupTable_dbDrop (t name : String) (h : t ≠ name) :
    ∀ db : Database, lookupTable (dbDrop t db) name = lookupTable db name := by
  intro db
  induction db with
  | nil => rfl
  | cons hd tl ih =>
    obtain ⟨nm, rs⟩ := hd
    by_cases hnm : nm = t
    · subst hnm
      simp [dbDrop, lookupTable, ih, h]
    · simp [dbDrop, lookupTable, hnm, ih]

/-- Creating one table does not affect lookups of another. -/
theorem lookupTable_dbCreate (t name : String) (h : t ≠ name) :
    ∀ db : Database, lookupTable (dbCreate t db) name = lookupTable db name := by
  intro db
  induction db with
  | nil => simp [dbCreate, lookupTable, h]
  | cons hd tl ih =>
    obtain ⟨nm, rs⟩ := hd
    simp only [dbCreate] at ih
    simp [dbCreate, lookupTable, ih]

/-- Inserting into one table does not affect lookups of another. -/
theorem lookupTable_dbInsert (t name : String) (r : List Value) (h : t ≠ name) :
    ∀ db : Database, lookupTable (dbInsert t r db) name = lookupTable db name := by
  intro db
  induction db with
  | nil => rfl
  | cons hd tl ih =>
    obtain ⟨nm, rs⟩ := hd
    by_cases hnm : nm = t
    · subst hnm
      simp [dbInsert, lookupTable, ih, h]
    · simp [dbInsert, lookupTable, hnm, ih]

/-- A seed statement addressed at another table leaves a table's rows
untouched. -/
theorem lookupTable_applySeedStmt (db : Database) (st : SeedStmt)
    (name : String) (h : st.target ≠ name) :
    lookupTable (applySeedStmt db st) name = lookupTable db name := by
  cases st with
  | dropIfExists t => exact lookupTable_dbDrop t name h db
  | create t => exact lookupTable_dbCreate t name h db
  | insertInto t r => exact lookupTable_dbInsert t name r h db

/-- Running a whole seed script that never addresses a table leaves that
table's rows untouched. -/
theorem lookupTable_runScript (script : List SeedStmt) (name : String) :
    ∀ db : Database, (∀ st ∈ script, st.target ≠ name) →
      lookupTable (runScript db script) name = lookupTable db name := by
  induction script with
  | nil => intro db _; rfl
  | cons st rest ih =>
    intro db h
    unfold runScript at ih ⊢
    rw [List.foldl_cons, ih (applySeedStmt db st)
        (fun s hs => h s (List.mem_cons_of_mem st hs)),
      lookupTable_applySeedStmt db st name (h st (List.mem_cons_self st rest))]

/-- Running all seed scripts that never address a table leaves that table's
rows untouched. -/
theorem lookupTable_runScripts (scripts : List (List SeedStmt)) (name : String) :
    ∀ db : Database, (∀ sc ∈ scripts, ∀ st ∈ sc, st.target ≠ name) →
      lookupTable (runScripts db scripts) name = lookupTable db name := by
  induction scripts with
  | nil => intro db _; rfl
  | cons sc rest ih =>
    intro db h
    unfold runScripts at ih ⊢
    rw [List.foldl_cons, ih (runScript db sc)
        (fun s hs st hst => h s (List.mem_cons_of_mem sc hs) st hst),
      lookupTable_runScript sc name db (h sc (List.mem_cons_self sc rest))]

/-- C9: resetting/reseeding the grading database leaves every existing
`USER_HISTORY` row unchanged — for both the in-app reset (which only issues
`CREATE TABLE IF NOT EXISTS` for the ledger, a no-op when it exists) and the
CLI reseed tool (which never mentions the ledger) — as long as the seed
scripts address only the school tables, which per spec §6 each contain
`CREATE TABLE`/`DROP TABLE`/`INSERT` statements for their own table. -/
theorem init_db_preserves_history (scripts : List (List SeedStmt))
    (db : Database) (rows : List (List Value))
    (hscripts : ∀ sc ∈ scripts, ∀ st ∈ sc, st.target ≠ "USER_HISTORY")
    (hrows : lookupTable db "USER_HISTORY" = some rows) :
    lookupTable (App.init_db scripts db) "USER_HISTORY" = some rows ∧
    lookupTable (ResetDb.init_db scripts db) "USER_HISTORY" = some rows := by
  have hnoop : createHistoryTableIfNotExists db = db := by
    unfold createHistoryTableIfNotExists
    rw [hrows]
  unfold App.init_db ResetDb.init_db
  rw [hnoop]
  constructor <;>
    rw [lookupTable_runScripts scripts "USER_HISTORY" db hscripts, hrows]

/-- Witness for C9: a database holding one ledger row and one school table,
reseeded by a script that drops, recreates and refills the school table. -/
theorem init_db_preserves_history_witness :
    lookupTable
        (App.init_db
          [[SeedStmt.dropIfExists "STUDENTS", SeedStmt.create "STUDENTS",
            SeedStmt.insertInto "STUDENTS" [Value.num 1, Value.text "ann"]]]
          [("USER_HISTORY", [[Value.num 0, Value.text "SELECT 1"]]),
           ("STUDENTS", [[Value.num 9, Value.text "old"]])])
        "USER_HISTORY" = some [[Value.num 0, Value.text "SELECT 1"]] ∧
    lookupTable
        (ResetDb.init_db
          [[SeedStmt.dropIfExists "STUDENTS", SeedStmt.create "STUDENTS",
            SeedStmt.insertInto "STUDENTS" [Value.num 1, Value.text "ann"]]]
          [("USER_HISTORY", [[Value.num 0, Value.text "SELECT 1"]]),
           ("STUDENTS", [[Value.num 9, Value.text "old"]])])
        "USER_HISTORY" = some [[Value.num 0, Value.text "SELECT 1"]] :=
  init_db_preserves_history _ _ _ (by decide) (by decide)

/-! ## C10 -/

/-- C10: when the SQL input is empty or whitespace-only, both the run and the
submit buttons leave the ledger unchanged, execute no query against the
database, and only show the prompt asking for SQL input. -/
theorem empty_sql_is_noop (submitClicked : Bool) (ts qid : ℕ) (sql : String)
    (userRes : RunResult) (ans : String) (refRes : RunResult)
    (ledger : List HistoryEntry) (h : stripTruthy sql = false) :
    handleClick submitClicked ts qid sql userRes ans refRes ledger =
      (ledger, [Effect.showedWarning "请输入 SQL 语句"]) ∧
    ∀ q : String, Effect.ranQuery q ∉
      (handleClick submitClicked ts qid sql userRes ans refRes ledger).2 := by
  have heq : handleClick submitClicked ts qid sql userRes ans refRes ledger =
      (ledger, [Effect.showedWarning "请输入 SQL 语句"]) := by
    unfold handleClick
    rw [h]
    rfl
  refine ⟨heq, ?_⟩
  intro q hq
  rw [heq] at hq
  simp at hq

/-- Witness for C10: whitespace-only SQL on a submit click with a non-empty
ledger. -/
theorem empty_sql_is_noop_witness :
    (handleClick true 11 2 "   " (RunResult.err "unreachable")
        "SELECT 1" (RunResult.ok { header := ["1"], rows := [[Value.num 1]] })
        [{ question_id := 2, user_sql := "SELECT 9", is_correct := false,
           error_message := some "Result mismatch", timestamp := 8 }] =
      ([{ question_id := 2, user_sql := "SELECT 9", is_correct := false,
          error_message := some "Result mismatch", timestamp := 8 }],
       [Effect.showedWarning "请输入 SQL 语句"]) ∧
    ∀ q : String, Effect.ranQuery q ∉
      (handleClick true 11 2 "   " (RunResult.err "unreachable")
        "SELECT 1" (RunResult.ok { header := ["1"], rows := [[Value.num 1]] })
        [{ question_id := 2, user_sql := "SELECT 9", is_correct := false,
           error_message := some "Result mismatch", timestamp := 8 }]).2) :=
  empty_sql_is_noop true 11 2 "   " _ "SELECT 1" _ _ (by decide)
